import Mathlib

/-!
Shallow embedding of the passthrough-video and capture-stream core of the
`rust-sdks` libwebrtc crate, together with theorems settling the spec claims.

Sources embedded:
- `libwebrtc/src/video_source.rs` (module `encoded`): `VideoCodecType`,
  `EncodedVideoFrame`, `EncodedVideoSource` and its operations.
- `libwebrtc/src/native/passthrough_video_source.rs`: the passthrough
  `EncodedVideoFrame`, `PassthroughError`, `PassthroughEncoderHandle`.
- `libwebrtc/src/native/video_capturer.rs`: the capture-callback-to-stream
  adapter (`VideoCapturerTrackObserver::on_frame`,
  `NativeVideoCapturerStream::poll_next` / `close`, `register_callback`).

Modelling conventions:
- Machine integers become `Nat` (u32) and `Int` (i64); none of the embedded
  operations can overflow them.
- Effects at the FFI boundary are made explicit: functions that may call into
  C++ return a log of `FFICall`s, and the hidden C++ encoder state (behind
  `passthrough_encoder_*`) is threaded as an explicit `FFIEncoderState`.
- The encoder factory's `get_encoder` reads mutable C++ state; a discovery
  call observes it as a function `Nat → Option PassthroughEncoderHandle`
  giving the factory's answer at each successive poll attempt.
-/

namespace LibWebRTC

/-- Rust `VideoCodecType` from `video_source.rs`. -/
inductive VideoCodecType
  | H264
  | VP8
  | VP9
  | AV1
deriving DecidableEq, Repr

/-- Rust `EncodedVideoFrame` from `video_source.rs` (module `encoded`).
Bytes of `data: Vec<u8>` are `Nat`s. -/
structure EncodedVideoFrame where
  data : List Nat
  rtp_timestamp : Nat
  capture_time_ms : Int
  ntp_time_ms : Int
  is_keyframe : Bool
  width : Nat
  height : Nat
  codec : VideoCodecType
deriving DecidableEq, Repr

/-- Rust `EncodedVideoFrame::new` from `video_source.rs`: `ntp_time_ms` is set to
`capture_time_ms`, everything else to the given arguments. -/
def EncodedVideoFrame.new (data : List Nat) (rtp_timestamp : Nat)
    (capture_time_ms : Int) (is_keyframe : Bool) (width height : Nat)
    (codec : VideoCodecType) : EncodedVideoFrame :=
  { data := data
    rtp_timestamp := rtp_timestamp
    capture_time_ms := capture_time_ms
    ntp_time_ms := capture_time_ms
    is_keyframe := is_keyframe
    width := width
    height := height
    codec := codec }

/-- Rust `EncodedVideoFrame::keyframe` from `video_source.rs`. -/
def EncodedVideoFrame.keyframe (data : List Nat) (rtp_timestamp : Nat)
    (capture_time_ms : Int) (width height : Nat) (codec : VideoCodecType) :
    EncodedVideoFrame :=
  EncodedVideoFrame.new data rtp_timestamp capture_time_ms true width height codec

/-- Rust `EncodedVideoFrame::delta_frame` from `video_source.rs`. -/
def EncodedVideoFrame.delta_frame (data : List Nat) (rtp_timestamp : Nat)
    (capture_time_ms : Int) (width height : Nat) (codec : VideoCodecType) :
    EncodedVideoFrame :=
  EncodedVideoFrame.new data rtp_timestamp capture_time_ms false width height codec

namespace Passthrough

/-- Rust `EncodedVideoFrame` from `native/passthrough_video_source.rs`
(no codec field). -/
structure EncodedVideoFrame where
  data : List Nat
  rtp_timestamp : Nat
  capture_time_ms : Int
  ntp_time_ms : Int
  is_keyframe : Bool
  width : Nat
  height : Nat
deriving DecidableEq, Repr

/-- Rust `EncodedVideoFrame::new` from `native/passthrough_video_source.rs`:
NTP time defaults to capture time. -/
def EncodedVideoFrame.new (data : List Nat) (rtp_timestamp : Nat)
    (capture_time_ms : Int) (is_keyframe : Bool) (width height : Nat) :
    EncodedVideoFrame :=
  { data := data
    rtp_timestamp := rtp_timestamp
    capture_time_ms := capture_time_ms
    ntp_time_ms := capture_time_ms
    is_keyframe := is_keyframe
    width := width
    height := height }

/-- Rust `EncodedVideoFrame::keyframe` from `native/passthrough_video_source.rs`. -/
def EncodedVideoFrame.keyframe (data : List Nat) (rtp_timestamp : Nat)
    (capture_time_ms : Int) (width height : Nat) : EncodedVideoFrame :=
  EncodedVideoFrame.new data rtp_timestamp capture_time_ms true width height

/-- Rust `EncodedVideoFrame::delta_frame` from
`native/passthrough_video_source.rs`. -/
def EncodedVideoFrame.delta_frame (data : List Nat) (rtp_timestamp : Nat)
    (capture_time_ms : Int) (width height : Nat) : EncodedVideoFrame :=
  EncodedVideoFrame.new data rtp_timestamp capture_time_ms false width height

end Passthrough

/-- Rust `PassthroughError` from `native/passthrough_video_source.rs`. -/
inductive PassthroughError
  | NotInitialized
  | InvalidData
  | EncoderError (code : Int)
  | NoEncoder
deriving DecidableEq, Repr

/-- The `Display` impl for `PassthroughError`
(`native/passthrough_video_source.rs`); `push_frame` maps errors through it
via `format!`. -/
def PassthroughError.display : PassthroughError → String
  | PassthroughError.NotInitialized => "Passthrough encoder not initialized"
  | PassthroughError.InvalidData => "Invalid frame data"
  | PassthroughError.EncoderError code => "Encoder error: " ++ toString code
  | PassthroughError.NoEncoder => "No encoder available"

/-- Modelled from the spec: the state of the C++ passthrough encoder behind
the FFI boundary (the `passthrough_encoder_*` functions are declared in
`webrtc-sys/src/passthrough_video_encoder.rs` but implemented in C++, which
is not part of the Rust sources). Per the spec it holds the one-bit
KeyframeRequestFlag ("boolean, edge-triggered, ... not a queue — repeated
sets before a clear collapse to one pending request") and it answers the
inject entry point with an integer status code, modelled here as the fixed
answer `inject_result`. -/
structure FFIEncoderState where
  keyframe_requested : Bool
  inject_result : Int
deriving DecidableEq, Repr

/-- Modelled from the spec: the C++ `passthrough_encoder_request_keyframe`
sets the one-bit keyframe-request flag. -/
def passthrough_encoder_request_keyframe (st : FFIEncoderState) :
    FFIEncoderState :=
  { st with keyframe_requested := true }

/-- Modelled from the spec: the C++ `passthrough_encoder_clear_keyframe_request`
clears the one-bit keyframe-request flag. -/
def passthrough_encoder_clear_keyframe_request (st : FFIEncoderState) :
    FFIEncoderState :=
  { st with keyframe_requested := false }

/-- Modelled from the spec: the C++ `passthrough_encoder_is_keyframe_requested`
reads the one-bit keyframe-request flag. -/
def passthrough_encoder_is_keyframe_requested (st : FFIEncoderState) : Bool :=
  st.keyframe_requested

/-- Modelled from the spec: the C++ `passthrough_encoder_inject_frame` returns
an integer status code (0 = success). -/
def passthrough_encoder_inject_frame (st : FFIEncoderState) : Int :=
  st.inject_result

/-- One call across the FFI boundary; the embedded operations return a log of
these so that theorems can speak about which FFI entry points were reached. -/
inductive FFICall
  | newFactory
  | injectFrame (encoder_ptr : Nat) (frame : Passthrough.EncodedVideoFrame)
deriving DecidableEq, Repr

/-- Rust `PassthroughEncoderHandle` from `native/passthrough_video_source.rs`:
a raw `*mut PassthroughVideoEncoder`; the pointer value is its identity. -/
structure PassthroughEncoderHandle where
  encoder_ptr : Nat
deriving DecidableEq, Repr

/-- Rust `PassthroughEncoderHandle::inject_frame`: rejects empty `data` with
`InvalidData` before the FFI call; otherwise calls
`passthrough_encoder_inject_frame` and turns a non-zero status into
`EncoderError`. The second component logs the FFI calls made. -/
def PassthroughEncoderHandle.inject_frame (self : PassthroughEncoderHandle)
    (ffi : FFIEncoderState) (frame : Passthrough.EncodedVideoFrame) :
    Except PassthroughError Unit × List FFICall :=
  if frame.data.isEmpty then
    (Except.error PassthroughError.InvalidData, [])
  else
    let result := passthrough_encoder_inject_frame ffi
    (if result = 0 then Except.ok ()
     else Except.error (PassthroughError.EncoderError result),
     [FFICall.injectFrame self.encoder_ptr frame])

/-- Rust `PassthroughEncoderHandle::request_keyframe`: delegates to the FFI. -/
def PassthroughEncoderHandle.request_keyframe
    (_self : PassthroughEncoderHandle) (ffi : FFIEncoderState) :
    FFIEncoderState :=
  passthrough_encoder_request_keyframe ffi

/-- Rust `PassthroughEncoderHandle::clear_keyframe_request`: delegates to the
FFI. -/
def PassthroughEncoderHandle.clear_keyframe_request
    (_self : PassthroughEncoderHandle) (ffi : FFIEncoderState) :
    FFIEncoderState :=
  passthrough_encoder_clear_keyframe_request ffi

/-- Rust `PassthroughEncoderHandle::is_keyframe_requested`: delegates to the
FFI. -/
def PassthroughEncoderHandle.is_keyframe_requested
    (_self : PassthroughEncoderHandle) (ffi : FFIEncoderState) : Bool :=
  passthrough_encoder_is_keyframe_requested ffi

/-- Rust `EncodedVideoSource` from `video_source.rs` (module `encoded`): the pure
state. The `encoder_factory` field is external C++ state and is observed
through the `factory` argument of `init_encoder`; `frame_tx` is never set by
any embedded operation and is omitted. -/
structure EncodedVideoSource where
  width : Nat
  height : Nat
  codec : VideoCodecType
  encoder_handle : Option PassthroughEncoderHandle
deriving DecidableEq, Repr

/-- Rust `EncodedVideoSource::new`: only H.264 is accepted; any other codec returns
`None` before anything is constructed. The `FFICall` log records whether the
factory (`PassthroughEncoderFactory::new`, an FFI constructor) was
instantiated. -/
def EncodedVideoSource.new (codec : VideoCodecType) (width height : Nat) :
    Option EncodedVideoSource × List FFICall :=
  if codec = VideoCodecType.H264 then
    (some { width := width
            height := height
            codec := codec
            encoder_handle := none },
     [FFICall.newFactory])
  else
    (none, [])

/-- The polling loop inside `EncodedVideoSource::initialize_encoder` /
`initialize_encoder_async`, extracted over the attempt budget. `factory i` is
what `PassthroughEncoderFactory::get_encoder` returns at the i-th poll.
Returns the found handle (if any) and the number of 100 ms sleeps performed:
one sleep follows every failed probe. -/
def encoderPollLoop (factory : Nat → Option PassthroughEncoderHandle) :
    Nat → Nat → Option PassthroughEncoderHandle × Nat
  | 0, _ => (none, 0)
  | Nat.succ n, i =>
    match factory i with
    | some e => (some e, 0)
    | none =>
      let r := encoderPollLoop factory n (i + 1)
      (r.1, r.2 + 1)

/-- Rust `EncodedVideoSource::initialize_encoder` (and, with identical logic,
`initialize_encoder_async`): polls the factory with a hardcoded budget of 50
attempts, sleeping 100 ms after each failed probe; on success stores the found
handle in `encoder_handle` (overwriting whatever was there) and returns
`true`, otherwise returns `false` and leaves the source unchanged. The third
component is the elapsed sleep time in milliseconds. -/
def EncodedVideoSource.init_encoder
    (self : EncodedVideoSource)
    (factory : Nat → Option PassthroughEncoderHandle) :
    Bool × EncodedVideoSource × Nat :=
  let r := encoderPollLoop factory 50 0
  match r.1 with
  | some e => (true, { self with encoder_handle := some e }, 100 * r.2)
  | none => (false, self, 100 * r.2)

/-- Rust `EncodedVideoSource::initialize_encoder_async` from `video_source.rs`:
same loop as the blocking variant with `tokio::time::sleep` in place of
`std::thread::sleep`; its observable behaviour is identical. -/
def EncodedVideoSource.init_encoder_async
    (self : EncodedVideoSource)
    (factory : Nat → Option PassthroughEncoderHandle) :
    Bool × EncodedVideoSource × Nat :=
  self.init_encoder factory

/-- Modelled from the spec: the spec-level discovery contract
`poll_for_encoder(max_attempts, interval) → Option<EncoderHandle>` of §4.4,
whose attempt count and interval are caller-chosen. Stated from the spec's
words, for comparison with the source's `init_encoder`. -/
def poll_for_encoder (max_attempts : Nat) (_interval_ms : Nat)
    (factory : Nat → Option PassthroughEncoderHandle) :
    Option PassthroughEncoderHandle :=
  List.findSome? factory (List.range max_attempts)

/-- Rust `EncodedVideoSource::push_frame`: if a handle is bound, copy the frame
into a passthrough frame and inject it, mapping errors through `Display`;
otherwise fail with the literal "Encoder not initialized". The second
component logs the FFI calls made. -/
def EncodedVideoSource.push_frame (self : EncodedVideoSource)
    (ffi : FFIEncoderState) (frame : EncodedVideoFrame) :
    Except String Unit × List FFICall :=
  match self.encoder_handle with
  | some encoder =>
    let passthrough_frame := Passthrough.EncodedVideoFrame.new frame.data
      frame.rtp_timestamp frame.capture_time_ms frame.is_keyframe
      frame.width frame.height
    let r := encoder.inject_frame ffi passthrough_frame
    (r.1.mapError (fun e => e.display), r.2)
  | none => (Except.error "Encoder not initialized", [])

/-- Rust `EncodedVideoSource::is_keyframe_requested`: reads the flag through the
bound handle, `false` when none is bound. -/
def EncodedVideoSource.is_keyframe_requested (self : EncodedVideoSource)
    (ffi : FFIEncoderState) : Bool :=
  match self.encoder_handle with
  | some encoder => encoder.is_keyframe_requested ffi
  | none => false

/-- Rust `EncodedVideoSource::clear_keyframe_request`: clears the flag through the
bound handle, a no-op when none is bound. -/
def EncodedVideoSource.clear_keyframe_request (self : EncodedVideoSource)
    (ffi : FFIEncoderState) : FFIEncoderState :=
  match self.encoder_handle with
  | some encoder => encoder.clear_keyframe_request ffi
  | none => ffi

/-- Rust `EncodedVideoSource::request_keyframe`: sets the flag through the bound
handle, a no-op when none is bound. -/
def EncodedVideoSource.request_keyframe (self : EncodedVideoSource)
    (ffi : FFIEncoderState) : FFIEncoderState :=
  match self.encoder_handle with
  | some encoder => encoder.request_keyframe ffi
  | none => ffi

/-- Rust `VideoFrame` as delivered to the capture callback
(`native/video_capturer.rs`): rotation, capture timestamp and an owned buffer
(opaque here, identified by a `Nat`). -/
structure VideoFrame where
  rotation : Nat
  timestamp_us : Int
  buffer : Nat
deriving DecidableEq, Repr

/-- Rust `NativeVideoCapturerStream` from `native/video_capturer.rs`, observed
through its `tokio::mpsc` unbounded channel: the queued frames (front =
oldest) and whether the receiver has been closed. -/
structure NativeVideoCapturerStream where
  buffer : List VideoFrame
  closed : Bool
deriving DecidableEq, Repr

namespace NativeVideoCapturerStream

/-- Rust `VideoCapturer::register_callback`: creates a fresh unbounded channel
(empty, open) wrapped in a `NativeVideoCapturerStream`. -/
def register_callback : NativeVideoCapturerStream :=
  { buffer := [], closed := false }

/-- Rust `tokio::mpsc::UnboundedSender::send` on the stream's channel: never
blocks; appends to the queue when the channel is open, returns an error
(second component `false`) leaving the state unchanged when it is closed. -/
def unbounded_send (ch : NativeVideoCapturerStream) (f : VideoFrame) :
    NativeVideoCapturerStream × Bool :=
  if ch.closed then (ch, false)
  else ({ ch with buffer := ch.buffer ++ [f] }, true)

/-- Rust `VideoCapturerTrackObserver::on_frame`: sends the converted frame on the
channel and discards the result (`let _ = self.frame_tx.send(...)`), so a
failed send surfaces no error to the driver. -/
def on_frame (ch : NativeVideoCapturerStream) (f : VideoFrame) :
    NativeVideoCapturerStream :=
  (unbounded_send ch f).1

/-- The result of one `poll_next` call (`Poll<Option<Item>>`). -/
inductive PollNext
  | Ready (f : Option VideoFrame)
  | Pending
deriving DecidableEq, Repr

/-- Rust `NativeVideoCapturerStream::poll_next` (via
`UnboundedReceiver::poll_recv`): yields the oldest queued frame when one is
buffered; on an empty queue, `Ready None` if the channel is closed, otherwise
`Pending`. -/
def poll_next (ch : NativeVideoCapturerStream) :
    PollNext × NativeVideoCapturerStream :=
  match ch.buffer with
  | f :: rest => (PollNext.Ready (some f), { ch with buffer := rest })
  | [] =>
    if ch.closed then (PollNext.Ready none, ch)
    else (PollNext.Pending, ch)

/-- Rust `NativeVideoCapturerStream::close`: `self.frame_rx.close()`; closes the
channel so further sends fail, delivering nothing. -/
def close (ch : NativeVideoCapturerStream) : NativeVideoCapturerStream :=
  { ch with closed := true }

/-- The `Drop` impl of `NativeVideoCapturerStream`: calls `close`; the
receiver (with any still-buffered frames) is then deallocated, so those
frames are never delivered. -/
def drop_stream (ch : NativeVideoCapturerStream) : NativeVideoCapturerStream :=
  close ch

/-- One step of interleaved producer/consumer activity on the stream: the
driver callback delivering a frame, or the consumer polling once. -/
inductive StreamOp
  | push (f : VideoFrame)
  | poll
deriving DecidableEq, Repr

/-- Run a sequence of interleaved pushes and polls on a stream, collecting
the frames the consumer receives, in the order it receives them. -/
def runOps : List StreamOp → NativeVideoCapturerStream →
    NativeVideoCapturerStream × List VideoFrame
  | [], ch => (ch, [])
  | StreamOp.push f :: rest, ch => runOps rest (on_frame ch f)
  | StreamOp.poll :: rest, ch =>
    let p := poll_next ch
    match p.1 with
    | PollNext.Ready (some f) =>
      let r := runOps rest p.2
      (r.1, f :: r.2)
    | PollNext.Ready none => runOps rest p.2
    | PollNext.Pending => runOps rest p.2

/-- The frames a sequence of operations pushes, in driver delivery order. -/
def pushedFrames : List StreamOp → List VideoFrame
  | [] => []
  | StreamOp.push f :: rest => f :: pushedFrames rest
  | StreamOp.poll :: rest => pushedFrames rest

end NativeVideoCapturerStream

/-! Concrete fixtures used to evaluate the definitions at specific inputs. -/

/-- An FFI encoder state with a clear keyframe flag whose inject entry point
reports success. -/
def testFFI : FFIEncoderState :=
  { keyframe_requested := false, inject_result := 0 }

/-- A frame constructed with empty `data`. -/
def emptyFrame : EncodedVideoFrame :=
  EncodedVideoFrame.new [] 0 0 true 640 480 VideoCodecType.H264

/-- A source with no encoder handle bound (as produced by a successful
`EncodedVideoSource::new`). -/
def sourceUnbound : EncodedVideoSource :=
  { width := 640
    height := 480
    codec := VideoCodecType.H264
    encoder_handle := none }

/-- A source with an encoder handle bound. -/
def sourceBound : EncodedVideoSource :=
  { sourceUnbound with encoder_handle := some { encoder_ptr := 1 } }

/-- A factory that never yields an encoder. -/
def factoryNever : Nat → Option PassthroughEncoderHandle :=
  fun _ => none

/-- A factory that yields an encoder only from its 51st poll attempt on
(index 50). -/
def factoryAt50 : Nat → Option PassthroughEncoderHandle :=
  fun i => if 50 ≤ i then some { encoder_ptr := 7 } else none

/-- A factory whose current encoder is the one at pointer 1. -/
def factoryA : Nat → Option PassthroughEncoderHandle :=
  fun _ => some { encoder_ptr := 1 }

/-- A factory whose current encoder is the one at pointer 2 (as after a
renegotiation replaced the encoder instance). -/
def factoryB : Nat → Option PassthroughEncoderHandle :=
  fun _ => some { encoder_ptr := 2 }

/-! Helper lemmas about the discovery loop and the stream adapter. -/

/-- If the factory yields nothing within the budget, the polling loop returns
`none` after sleeping once per attempt. -/
theorem encoderPollLoop_eq_none (factory : Nat → Option PassthroughEncoderHandle)
    (n : Nat) :
    ∀ i, (∀ j, j < n → factory (i + j) = none) →
      encoderPollLoop factory n i = (none, n) := by
  induction n with
  | zero => intro i _; rfl
  | succ n ih =>
    intro i h
    have h0 : factory i = none := by simpa using h 0 (Nat.succ_pos n)
    have hrec := ih (i + 1) (fun j hj => by
      have hx := h (j + 1) (Nat.succ_lt_succ hj)
      have he : i + (j + 1) = i + 1 + j := by omega
      rwa [he] at hx)
    simp [encoderPollLoop, h0, hrec]

/-- The polling loop only looks at the factory's answers within the budget. -/
theorem encoderPollLoop_congr (f g : Nat → Option PassthroughEncoderHandle)
    (n : Nat) :
    ∀ i, (∀ j, j < n → f (i + j) = g (i + j)) →
      encoderPollLoop f n i = encoderPollLoop g n i := by
  induction n with
  | zero => intro i _; rfl
  | succ n ih =>
    intro i h
    have h0 : f i = g i := by simpa using h 0 (Nat.succ_pos n)
    have hrec := ih (i + 1) (fun j hj => by
      have hx := h (j + 1) (Nat.succ_lt_succ hj)
      have he : i + (j + 1) = i + 1 + j := by omega
      rwa [he] at hx)
    cases hg : g i with
    | some e => simp [encoderPollLoop, h0, hg]
    | none => simp [encoderPollLoop, h0, hg, hrec]

/-- If the factory first yields an encoder at relative attempt `k` within the
budget, the loop returns that encoder after `k` sleeps. -/
theorem encoderPollLoop_find (factory : Nat → Option PassthroughEncoderHandle)
    (n : Nat) :
    ∀ i k e, k < n → (∀ j, j < k → factory (i + j) = none) →
      factory (i + k) = some e → encoderPollLoop factory n i = (some e, k) := by
  induction n with
  | zero => intro i k e hk _ _; exact absurd hk (Nat.not_lt_zero k)
  | succ n ih =>
    intro i k e hk hnone hsome
    cases k with
    | zero =>
      have h0 : factory i = some e := by simpa using hsome
      simp [encoderPollLoop, h0]
    | succ k =>
      have h0 : factory i = none := by simpa using hnone 0 (Nat.succ_pos k)
      have hrec := ih (i + 1) k e (by omega)
        (fun j hj => by
          have hx := hnone (j + 1) (Nat.succ_lt_succ hj)
          have he : i + (j + 1) = i + 1 + j := by omega
          rwa [he] at hx)
        (by
          have he : i + (k + 1) = i + 1 + k := by omega
          rwa [he] at hsome)
      simp [encoderPollLoop, h0, hrec]

namespace NativeVideoCapturerStream

/-- On an open stream, the frames already emitted followed by the frames still
buffered are exactly the initial buffer followed by the pushed frames, in
order. -/
theorem runOps_open_invariant (ops : List StreamOp) :
    ∀ ch : NativeVideoCapturerStream, ch.closed = false →
      (runOps ops ch).2 ++ (runOps ops ch).1.buffer =
        ch.buffer ++ pushedFrames ops := by
  induction ops with
  | nil => intro ch _; simp [runOps, pushedFrames]
  | cons op rest ih =>
    intro ch h
    cases op with
    | push f =>
      have hopen : (on_frame ch f).closed = false := by
        simp [on_frame, unbounded_send, h]
      have hbuf : (on_frame ch f).buffer = ch.buffer ++ [f] := by
        simp [on_frame, unbounded_send, h]
      have hrec := ih (on_frame ch f) hopen
      rw [hbuf] at hrec
      simp only [runOps, pushedFrames]
      rw [hrec]
      simp
    | poll =>
      cases hb : ch.buffer with
      | nil =>
        have hp : poll_next ch = (PollNext.Pending, ch) := by
          simp [poll_next, hb, h]
        have hrec := ih ch h
        simp only [runOps, hp]
        simpa [pushedFrames, hb] using hrec
      | cons f bs =>
        have hp : poll_next ch =
            (PollNext.Ready (some f), { ch with buffer := bs }) := by
          simp [poll_next, hb]
        have hrec := ih { ch with buffer := bs } h
        simp only [runOps, hp]
        simp only [pushedFrames, hb]
        rw [List.cons_append, hrec]
        simp

end NativeVideoCapturerStream

/-! Claim theorems. -/

/-- Claim C1, counterexample: on a source with no encoder handle bound,
`push_frame` with an empty-data frame returns the NotInitialized error
("Encoder not initialized"), not the InvalidData error, so the claim's "in
any state" quantification fails. -/
theorem push_frame_empty_unbound_not_invalid_data :
    (sourceUnbound.push_frame testFFI emptyFrame).1 =
      Except.error "Encoder not initialized" ∧
    "Encoder not initialized" ≠
      PassthroughError.display PassthroughError.InvalidData :=
  ⟨rfl, by decide⟩

/-- Claim C1 (amended): `push_frame` with an empty-data frame never reaches
the FFI injection call; with an encoder handle bound it returns the
InvalidData error, and with none bound it returns the NotInitialized error
instead. -/
theorem push_frame_empty_data_never_injects
    (s : EncodedVideoSource) (ffi : FFIEncoderState) (frame : EncodedVideoFrame)
    (hdata : frame.data = []) :
    (s.push_frame ffi frame).2 = [] ∧
    (∀ e, s.encoder_handle = some e →
      (s.push_frame ffi frame).1 =
        Except.error (PassthroughError.display PassthroughError.InvalidData)) ∧
    (s.encoder_handle = none →
      (s.push_frame ffi frame).1 = Except.error "Encoder not initialized") := by
  cases hh : s.encoder_handle with
  | none => simp [EncodedVideoSource.push_frame, hh]
  | some e =>
    simp [EncodedVideoSource.push_frame, hh,
      PassthroughEncoderHandle.inject_frame, Passthrough.EncodedVideoFrame.new,
      hdata, PassthroughError.display, Except.mapError]

/-- Claim C1, witness: the amended theorem evaluated on a source with a bound
handle and a concrete empty-data frame. -/
theorem push_frame_empty_data_never_injects_witness :
    (sourceBound.push_frame testFFI emptyFrame).2 = [] ∧
    (∀ e, sourceBound.encoder_handle = some e →
      (sourceBound.push_frame testFFI emptyFrame).1 =
        Except.error (PassthroughError.display PassthroughError.InvalidData)) ∧
    (sourceBound.encoder_handle = none →
      (sourceBound.push_frame testFFI emptyFrame).1 =
        Except.error "Encoder not initialized") :=
  push_frame_empty_data_never_injects sourceBound testFFI emptyFrame rfl

/-- Claim C2: on a source with no encoder handle bound, `push_frame` with any
frame returns the NotInitialized error ("Encoder not initialized") and makes
no FFI call. -/
theorem push_frame_unbound_not_initialized
    (s : EncodedVideoSource) (ffi : FFIEncoderState) (frame : EncodedVideoFrame)
    (h : s.encoder_handle = none) :
    s.push_frame ffi frame = (Except.error "Encoder not initialized", []) := by
  simp [EncodedVideoSource.push_frame, h]

/-- Claim C2, witness: the theorem evaluated on a concrete unbound source and
frame. -/
theorem push_frame_unbound_not_initialized_witness :
    sourceUnbound.push_frame testFFI emptyFrame =
      (Except.error "Encoder not initialized", []) :=
  push_frame_unbound_not_initialized sourceUnbound testFFI emptyFrame rfl

/-- Claim C3: for every codec other than H264 and every width and height,
`EncodedVideoSource::new` returns failure immediately, with no factory
instantiated (empty FFI log) and hence no encoder handle. -/
theorem new_non_h264_fails_without_side_effects
    (codec : VideoCodecType) (width height : Nat)
    (h : codec ≠ VideoCodecType.H264) :
    EncodedVideoSource.new codec width height = (none, []) := by
  simp [EncodedVideoSource.new, h]

/-- Claim C3, witness: the theorem evaluated at VP8, 1920x1080. -/
theorem new_non_h264_fails_without_side_effects_witness :
    EncodedVideoSource.new VideoCodecType.VP8 1920 1080 = (none, []) :=
  new_non_h264_fails_without_side_effects VideoCodecType.VP8 1920 1080
    (by decide)

/-- Claim C4, counterexample: against a factory that first yields an encoder
on its 51st probe, the source's discovery returns failure — its 50-attempt
budget is hardcoded and cannot be configured by the caller, although the
spec-level contract `poll_for_encoder` with a caller-chosen budget of 51
attempts would find the encoder. -/
theorem init_encoder_attempt_budget_not_configurable :
    (sourceUnbound.init_encoder factoryAt50).1 = false ∧
    poll_for_encoder 51 100 factoryAt50 = some { encoder_ptr := 7 } :=
  ⟨rfl, rfl⟩

/-- Claim C4 (amended): discovery probes the factory at most 50 times with
100 ms sleeps after each failed probe (the budget and interval are hardcoded,
not caller-configurable); on exhausting the budget it returns `false` (an
unsuccessful result, not a raised failure) after 5000 ms of sleeping, and on
first success at attempt `k` it returns `true` after `100 * k` ms. -/
theorem init_encoder_fixed_budget_50
    (factory : Nat → Option PassthroughEncoderHandle) (s : EncodedVideoSource) :
    ((∀ i, i < 50 → factory i = none) →
      s.init_encoder factory = (false, s, 5000)) ∧
    (∀ g, (∀ i, i < 50 → factory i = g i) →
      s.init_encoder factory = s.init_encoder g) ∧
    (∀ k e, k < 50 → (∀ i, i < k → factory i = none) → factory k = some e →
      s.init_encoder factory =
        (true, { s with encoder_handle := some e }, 100 * k)) := by
  refine ⟨?_, ?_, ?_⟩
  · intro h
    have hl := encoderPollLoop_eq_none factory 50 0
      (fun j hj => by simpa using h j hj)
    simp [EncodedVideoSource.init_encoder, hl]
  · intro g hfg
    have hl := encoderPollLoop_congr factory g 50 0
      (fun j hj => by simpa using hfg j hj)
    simp [EncodedVideoSource.init_encoder, hl]
  · intro k e hk hnone hsome
    have hl := encoderPollLoop_find factory 50 0 k e hk
      (fun j hj => by simpa using hnone j hj) (by simpa using hsome)
    simp [EncodedVideoSource.init_encoder, hl]

/-- Claim C4, witness: the amended theorem's exhaustion branch evaluated
against a factory that never yields an encoder. -/
theorem init_encoder_fixed_budget_50_witness :
    sourceUnbound.init_encoder factoryNever = (false, sourceUnbound, 5000) :=
  (init_encoder_fixed_budget_50 factoryNever sourceUnbound).1 (fun _ _ => rfl)

/-- Claim C5, counterexample: after a first discovery binds the factory's
encoder at pointer 1, a second `initialize_encoder` call against the
factory's later state (a new encoder at pointer 2, as after renegotiation)
replaces the bound handle with a different one. -/
theorem init_encoder_rebinds_after_renegotiation :
    ((sourceUnbound.init_encoder factoryA).2.1).encoder_handle =
      some { encoder_ptr := 1 } ∧
    (((sourceUnbound.init_encoder factoryA).2.1).init_encoder
        factoryB).2.1.encoder_handle = some { encoder_ptr := 2 } ∧
    ({ encoder_ptr := 2 } : PassthroughEncoderHandle) ≠ { encoder_ptr := 1 } :=
  ⟨rfl, rfl, by decide⟩

/-- Claim C5 (amended): the bound handle is changed only by a further
successful discovery call, which re-polls and rebinds to the factory's
currently available encoder regardless of the existing binding; a failed
discovery leaves the source, and hence the binding, unchanged. -/
theorem init_encoder_binds_factory_current_encoder
    (factory : Nat → Option PassthroughEncoderHandle) (s : EncodedVideoSource) :
    (∀ e, factory 0 = some e →
      s.init_encoder factory =
        (true, { s with encoder_handle := some e }, 0)) ∧
    ((∀ i, i < 50 → factory i = none) → (s.init_encoder factory).2.1 = s) := by
  constructor
  · intro e h0
    have hl := encoderPollLoop_find factory 50 0 0 e (by omega)
      (fun j hj => absurd hj (Nat.not_lt_zero j)) (by simpa using h0)
    simp [EncodedVideoSource.init_encoder, hl]
  · intro h
    have hl := encoderPollLoop_eq_none factory 50 0
      (fun j hj => by simpa using h j hj)
    simp [EncodedVideoSource.init_encoder, hl]

/-- Claim C5, witness: the amended theorem's rebinding branch evaluated
against a factory whose current encoder is at pointer 1. -/
theorem init_encoder_binds_factory_current_encoder_witness :
    sourceUnbound.init_encoder factoryA =
      (true, { sourceUnbound with encoder_handle := some { encoder_ptr := 1 } },
        0) :=
  (init_encoder_binds_factory_current_encoder factoryA sourceUnbound).1
    { encoder_ptr := 1 } rfl

/-- Claim C6: for every interleaving of driver deliveries and consumer polls
on a freshly registered stream, the frames the consumer has received followed
by the frames still queued are exactly the delivered frames in delivery
order — no reordering, duplication or coalescing. -/
theorem stream_preserves_driver_order
    (ops : List NativeVideoCapturerStream.StreamOp) :
    (NativeVideoCapturerStream.runOps ops
        NativeVideoCapturerStream.register_callback).2 ++
      (NativeVideoCapturerStream.runOps ops
        NativeVideoCapturerStream.register_callback).1.buffer =
      NativeVideoCapturerStream.pushedFrames ops := by
  have h := NativeVideoCapturerStream.runOps_open_invariant ops
    NativeVideoCapturerStream.register_callback rfl
  simpa [NativeVideoCapturerStream.register_callback] using h

/-- Claim C7: once a stream is closed (explicitly or through drop), a push
from the driver callback leaves the stream state unchanged and surfaces no
error (`on_frame` discards the failed send's result, and the non-blocking
send reports failure only through its discarded return value); closing flushes
nothing — the buffered frames are simply left behind to be dropped with the
receiver. -/
theorem closed_stream_drops_pushes_silently
    (ch : NativeVideoCapturerStream) (f : VideoFrame) :
    NativeVideoCapturerStream.on_frame (NativeVideoCapturerStream.close ch) f =
      NativeVideoCapturerStream.close ch ∧
    (NativeVideoCapturerStream.unbounded_send
        (NativeVideoCapturerStream.close ch) f).2 = false ∧
    (NativeVideoCapturerStream.close ch).buffer = ch.buffer ∧
    NativeVideoCapturerStream.drop_stream ch =
      NativeVideoCapturerStream.close ch := by
  refine ⟨?_, ?_, rfl, rfl⟩ <;>
    simp [NativeVideoCapturerStream.on_frame,
      NativeVideoCapturerStream.unbounded_send,
      NativeVideoCapturerStream.close]

/-- Claim C8: two consecutive `request_keyframe` calls with no intervening
clear leave the flag state identical to a single call, both through the
source facade and through the raw encoder handle, and are therefore
indistinguishable through `is_keyframe_requested`. -/
theorem request_keyframe_idempotent
    (s : EncodedVideoSource) (ffi : FFIEncoderState) :
    s.request_keyframe (s.request_keyframe ffi) = s.request_keyframe ffi ∧
    s.is_keyframe_requested (s.request_keyframe (s.request_keyframe ffi)) =
      s.is_keyframe_requested (s.request_keyframe ffi) ∧
    (∀ e : PassthroughEncoderHandle,
      e.request_keyframe (e.request_keyframe ffi) = e.request_keyframe ffi) := by
  cases hh : s.encoder_handle <;>
    simp [EncodedVideoSource.request_keyframe,
      EncodedVideoSource.is_keyframe_requested, hh,
      PassthroughEncoderHandle.request_keyframe,
      passthrough_encoder_request_keyframe,
      PassthroughEncoderHandle.is_keyframe_requested,
      passthrough_encoder_is_keyframe_requested]

/-- Claim C9: both `EncodedVideoFrame::new` constructors set `ntp_time_ms` to
`capture_time_ms` and every other field to the given argument, and the
`keyframe` / `delta_frame` constructors are `new` with the keyframe flag set
to `true` / `false`. -/
theorem encoded_video_frame_new_fields
    (data : List Nat) (rtp : Nat) (cap : Int) (kf : Bool) (w h : Nat)
    (codec : VideoCodecType) :
    EncodedVideoFrame.new data rtp cap kf w h codec =
      { data := data, rtp_timestamp := rtp, capture_time_ms := cap,
        ntp_time_ms := cap, is_keyframe := kf, width := w, height := h,
        codec := codec } ∧
    EncodedVideoFrame.keyframe data rtp cap w h codec =
      EncodedVideoFrame.new data rtp cap true w h codec ∧
    EncodedVideoFrame.delta_frame data rtp cap w h codec =
      EncodedVideoFrame.new data rtp cap false w h codec ∧
    Passthrough.EncodedVideoFrame.new data rtp cap kf w h =
      { data := data, rtp_timestamp := rtp, capture_time_ms := cap,
        ntp_time_ms := cap, is_keyframe := kf, width := w, height := h } ∧
    Passthrough.EncodedVideoFrame.keyframe data rtp cap w h =
      Passthrough.EncodedVideoFrame.new data rtp cap true w h ∧
    Passthrough.EncodedVideoFrame.delta_frame data rtp cap w h =
      Passthrough.EncodedVideoFrame.new data rtp cap false w h :=
  ⟨rfl, rfl, rfl, rfl, rfl, rfl⟩

/-- Claim C10: on a source with no encoder handle bound,
`is_keyframe_requested` returns `false`, `clear_keyframe_request` and
`request_keyframe` return with the FFI state unchanged (silent no-ops), while
`push_frame` in the same state fails with the NotInitialized error. -/
theorem keyframe_ops_unbound_noop
    (s : EncodedVideoSource) (ffi : FFIEncoderState) (frame : EncodedVideoFrame)
    (h : s.encoder_handle = none) :
    s.is_keyframe_requested ffi = false ∧
    s.clear_keyframe_request ffi = ffi ∧
    s.request_keyframe ffi = ffi ∧
    (s.push_frame ffi frame).1 = Except.error "Encoder not initialized" := by
  simp [EncodedVideoSource.is_keyframe_requested,
    EncodedVideoSource.clear_keyframe_request,
    EncodedVideoSource.request_keyframe, EncodedVideoSource.push_frame, h]

/-- Claim C10, witness: the theorem evaluated on a concrete unbound source. -/
theorem keyframe_ops_unbound_noop_witness :
    sourceUnbound.is_keyframe_requested testFFI = false ∧
    sourceUnbound.clear_keyframe_request testFFI = testFFI ∧
    sourceUnbound.request_keyframe testFFI = testFFI ∧
    (sourceUnbound.push_frame testFFI emptyFrame).1 =
      Except.error "Encoder not initialized" :=
  keyframe_ops_unbound_noop sourceUnbound testFFI emptyFrame rfl

end LibWebRTC
